import Mathlib

/-!
Shallow embedding of the wispr_local demo
(`src/eye_tracking_playground/ls2cs-net-extension/demo.py`).

The pieces embedded here are the ones the repository itself defines:

* the device-selection glue in `__main__` (lines 186-211), as a function of
  the request string and of the two availability probes
  (`torch.cuda.is_available()` and `torch.backends.mps.is_available()`);
* `MPSPipeline.step` (lines 67-148): downscale decision, detection,
  confidence filtering, coordinate rescaling, cropping, batched gaze
  inference and result assembly;
* the capture loop in `__main__` (lines 232-257), as a transition function
  over camera events.

The face detector and the gaze model are external pretrained networks; they
are passed in as opaque function parameters.  Detector coordinates, scores
and scale factors are modelled as rationals (`ℚ`); Python `int()` truncation
toward zero is modelled explicitly by `pyInt`.  Frames carry only their
dimensions, since none of the embedded logic reads pixel values; a cropped
face image carries the integer crop rectangle together with the target size
of the final `cv2.resize`.  The `step` embedding additionally records, as
plain data, the frame handed to the detector, the scale factors, and the
list of batches submitted to the gaze model, so that theorems can speak
about them.
-/

namespace Wispr

/-- A torch compute device as used by demo.py: `cpu`, `cuda:idx`, or `mps`. -/
inductive Device where
  | cpu : Device
  | cuda : Nat → Device
  | mps : Device
deriving DecidableEq, Repr

/-- Python `str.lower()`, on a string modelled as its character list. -/
def lowerChars (s : List Char) : List Char :=
  s.map Char.toLower

/-- Python `str.startswith(pat)`, on strings modelled as character lists. -/
def charsStartWith : List Char → List Char → Bool
  | _, [] => true
  | [], _ :: _ => false
  | c :: cs, p :: ps => c == p && charsStartWith cs ps

/-- Device selection from demo.py `__main__` (lines 186-211): a request equal
(case-insensitively) to "cpu" auto-detects in priority CUDA, then MPS, then
CPU; a request starting with "gpu" does the same probe; anything else is CPU.
Request strings are modelled as character lists. -/
def selectDevice (request : List Char) (cudaAvailable mpsAvailable : Bool) : Device :=
  if lowerChars request = "cpu".data then
    if cudaAvailable then Device.cuda 0
    else if mpsAvailable then Device.mps
    else Device.cpu
  else if charsStartWith (lowerChars request) "gpu".data then
    if cudaAvailable then Device.cuda 0
    else if mpsAvailable then Device.mps
    else Device.cpu
  else Device.cpu

/-- Python `int()` applied to a rational: truncation toward zero. -/
def pyInt (q : ℚ) : Int :=
  Int.tdiv q.num (q.den : Int)

/-- A detector bounding box `[x_min, y_min, x_max, y_max]`. -/
structure BBox where
  x0 : ℚ
  y0 : ℚ
  x1 : ℚ
  y1 : ℚ
deriving DecidableEq, Repr

/-- One face candidate returned by the RetinaFace detector: a box, a
landmark point set and a confidence score. -/
structure FaceCandidate where
  box : BBox
  landmarks : List (ℚ × ℚ)
  score : ℚ
deriving DecidableEq, Repr

/-- A video frame, abstracted to its dimensions (the embedded logic never
reads pixel values). -/
structure Frame where
  width : Nat
  height : Nat
deriving DecidableEq, Repr

/-- A face image prepared for the gaze model: the integer crop rectangle cut
from the original frame (demo.py lines 106-112) and the size it is resized
to (line 114). -/
structure FaceImg where
  cropXMin : Int
  cropYMin : Int
  cropXMax : Int
  cropYMax : Int
  width : Nat
  height : Nat
deriving DecidableEq, Repr

/-- The assembled per-frame result (`l2cs.results.GazeResultContainer`),
demo.py lines 140-146.  Numpy arrays are modelled as lists. -/
structure GazeResultContainer where
  pitch : List ℚ
  yaw : List ℚ
  bboxes : List BBox
  landmarks : List (List (ℚ × ℚ))
  scores : List ℚ
deriving DecidableEq, Repr

/-- The fixed configuration `MPSPipeline.step` reads:
`self.detection_resolution` and `self.confidence_threshold`. -/
structure StepConfig where
  detectionResolution : Option (Int × Int)
  confidenceThreshold : ℚ
deriving DecidableEq, Repr

/-- The downscale decision of demo.py lines 76-88: the frame handed to the
detector, and the factors `scale_x`, `scale_y` used to map detection
coordinates back to the native frame.  `None` and a nonpositive dimension
both leave the frame untouched with unit scale factors. -/
def detectionSetup (cfg : StepConfig) (frame : Frame) : Frame × ℚ × ℚ :=
  match cfg.detectionResolution with
  | some (dw, dh) =>
    if 0 < dw ∧ 0 < dh then
      (⟨dw.toNat, dh.toNat⟩, (frame.width : ℚ) / (dw : ℚ), (frame.height : ℚ) / (dh : ℚ))
    else
      (frame, 1, 1)
  | none => (frame, 1, 1)

/-- The crop-and-resize of one surviving candidate (demo.py lines 105-114):
integer crop coordinates with only the min corner clamped to 0, then a
resize to 224 by 224. -/
def cropRect (sx sy : ℚ) (c : FaceCandidate) : FaceImg :=
  { cropXMin := max 0 (pyInt (c.box.x0 * sx))
    cropYMin := max 0 (pyInt (c.box.y0 * sy))
    cropXMax := pyInt (c.box.x1 * sx)
    cropYMax := pyInt (c.box.y1 * sy)
    width := 224
    height := 224 }

/-- The box stored in the assembled result (demo.py line 118): the raw
rescaled coordinates, with no clamping. -/
def scaledBox (sx sy : ℚ) (c : FaceCandidate) : BBox :=
  ⟨c.box.x0 * sx, c.box.y0 * sy, c.box.x1 * sx, c.box.y1 * sy⟩

/-- The landmarks stored in the assembled result (demo.py line 119):
each point scaled componentwise. -/
def scaledLandmarks (sx sy : ℚ) (c : FaceCandidate) : List (ℚ × ℚ) :=
  c.landmarks.map (fun p => (p.1 * sx, p.2 * sy))

/-- The per-candidate loop of demo.py lines 101-123: candidates with
`score < confidence_threshold` are skipped, the rest contribute, in order, a
cropped face image, a scaled box, scaled landmarks and their score. -/
def collectFaces (sx sy thr : ℚ) :
    List FaceCandidate → List FaceImg × List BBox × List (List (ℚ × ℚ)) × List ℚ
  | [] => ([], [], [], [])
  | c :: rest =>
    let tail := collectFaces sx sy thr rest
    if c.score < thr then tail
    else (cropRect sx sy c :: tail.1, scaledBox sx sy c :: tail.2.1,
          scaledLandmarks sx sy c :: tail.2.2.1, c.score :: tail.2.2.2)

/-- The candidates that pass the confidence filter, in detector order. -/
def survivors (thr : ℚ) (fs : List FaceCandidate) : List FaceCandidate :=
  fs.filter (fun c => ! decide (c.score < thr))

/-- Number of candidates passing the confidence filter, with a `None`
detector result counting as zero. -/
def numSurvivors (thr : ℚ) : Option (List FaceCandidate) → Nat
  | none => 0
  | some fs => (survivors thr fs).length

/-- Everything observable about one `MPSPipeline.step` call: the assembled
result, the frame handed to the detector, the scale factors, and the batches
submitted to the gaze model (in order). -/
structure StepOutput where
  result : GazeResultContainer
  detectionFrame : Frame
  scaleX : ℚ
  scaleY : ℚ
  gazeBatches : List (List FaceImg)
deriving Repr

/-- The all-empty result assembled when nothing survives. -/
def emptyResult : GazeResultContainer :=
  ⟨[], [], [], [], []⟩

/-- `MPSPipeline.step` (demo.py lines 67-148).  The detector and the gaze
model are opaque external collaborators passed as functions; the detector
may return `none` (Python `None`) or a list of candidates, and the gaze
model maps a batch of face images to a pitch array and a yaw array. -/
def step (cfg : StepConfig) (detector : Frame → Option (List FaceCandidate))
    (gazeModel : List FaceImg → List ℚ × List ℚ) (frame : Frame) : StepOutput :=
  let setup := detectionSetup cfg frame
  match detector setup.1 with
  | none => ⟨emptyResult, setup.1, setup.2.1, setup.2.2, []⟩
  | some fs =>
    let col := collectFaces setup.2.1 setup.2.2 cfg.confidenceThreshold fs
    if 0 < col.1.length then
      let pw := gazeModel col.1
      ⟨⟨pw.1, pw.2, col.2.1, col.2.2.1, col.2.2.2⟩, setup.1, setup.2.1, setup.2.2, [col.1]⟩
    else
      ⟨⟨[], [], col.2.1, col.2.2.1, col.2.2.2⟩, setup.1, setup.2.1, setup.2.2, []⟩

/-- One camera read in the capture loop: either no frame was obtained, or a
frame arrived and the quit key may or may not have been pressed during the
iteration. -/
inductive CamEvent where
  | noFrame : CamEvent
  | gotFrame : Frame → Bool → CamEvent
deriving DecidableEq, Repr

/-- What one iteration of the capture loop does. -/
inductive IterAction where
  | pauseRetry : IterAction
  | showFrame : IterAction
  | quit : IterAction
deriving DecidableEq, Repr

/-- One iteration of the capture loop (demo.py lines 232-257): a failed read
prints a message, sleeps 0.1 s and continues; a successful read processes
and displays the frame, then quits only on the quit key. -/
def loopIter : CamEvent → IterAction
  | CamEvent.noFrame => IterAction.pauseRetry
  | CamEvent.gotFrame _ q => if q then IterAction.quit else IterAction.showFrame

/-- The capture loop run over a finite trace of camera events: it stops at
the first quit, and otherwise records each iteration action. -/
def runLoop : List CamEvent → List IterAction
  | [] => []
  | e :: rest =>
    match loopIter e with
    | IterAction.quit => [IterAction.quit]
    | a => a :: runLoop rest

theorem collectFaces_eq (sx sy thr : ℚ) (fs : List FaceCandidate) :
    collectFaces sx sy thr fs =
      ((survivors thr fs).map (cropRect sx sy),
       (survivors thr fs).map (scaledBox sx sy),
       (survivors thr fs).map (scaledLandmarks sx sy),
       (survivors thr fs).map FaceCandidate.score) := by
  induction fs with
  | nil => rfl
  | cons c rest ih =>
    by_cases h : c.score < thr
    · simp [collectFaces, h, ih, survivors, List.filter_cons]
    · simp [collectFaces, h, ih, survivors, List.filter_cons]

theorem step_projections (cfg : StepConfig) (detector : Frame → Option (List FaceCandidate))
    (gazeModel : List FaceImg → List ℚ × List ℚ) (frame : Frame) :
    (step cfg detector gazeModel frame).detectionFrame = (detectionSetup cfg frame).1 ∧
    (step cfg detector gazeModel frame).scaleX = (detectionSetup cfg frame).2.1 ∧
    (step cfg detector gazeModel frame).scaleY = (detectionSetup cfg frame).2.2 := by
  cases hd : detector (detectionSetup cfg frame).1 with
  | none => simp [step, hd]
  | some fs =>
    simp only [step, hd]
    split <;> simp

theorem step_none_eq (cfg : StepConfig) (detector : Frame → Option (List FaceCandidate))
    (gazeModel : List FaceImg → List ℚ × List ℚ) (frame : Frame)
    (hdet : detector (detectionSetup cfg frame).1 = none) :
    step cfg detector gazeModel frame =
      ⟨emptyResult, (detectionSetup cfg frame).1, (detectionSetup cfg frame).2.1,
       (detectionSetup cfg frame).2.2, []⟩ := by
  simp [step, hdet]

theorem step_some_parts (cfg : StepConfig) (detector : Frame → Option (List FaceCandidate))
    (gazeModel : List FaceImg → List ℚ × List ℚ) (frame : Frame) (fs : List FaceCandidate)
    (hdet : detector (detectionSetup cfg frame).1 = some fs) :
    (step cfg detector gazeModel frame).result.bboxes
        = (survivors cfg.confidenceThreshold fs).map
            (scaledBox (detectionSetup cfg frame).2.1 (detectionSetup cfg frame).2.2) ∧
    (step cfg detector gazeModel frame).result.landmarks
        = (survivors cfg.confidenceThreshold fs).map
            (scaledLandmarks (detectionSetup cfg frame).2.1 (detectionSetup cfg frame).2.2) ∧
    (step cfg detector gazeModel frame).result.scores
        = (survivors cfg.confidenceThreshold fs).map FaceCandidate.score := by
  simp only [step, hdet, collectFaces_eq]
  split <;> simp

theorem step_some_pos_eq (cfg : StepConfig) (detector : Frame → Option (List FaceCandidate))
    (gazeModel : List FaceImg → List ℚ × List ℚ) (frame : Frame) (fs : List FaceCandidate)
    (hdet : detector (detectionSetup cfg frame).1 = some fs)
    (hpos : 0 < (survivors cfg.confidenceThreshold fs).length) :
    (step cfg detector gazeModel frame).gazeBatches
        = [(survivors cfg.confidenceThreshold fs).map
            (cropRect (detectionSetup cfg frame).2.1 (detectionSetup cfg frame).2.2)] ∧
    (step cfg detector gazeModel frame).result.pitch
        = (gazeModel ((survivors cfg.confidenceThreshold fs).map
            (cropRect (detectionSetup cfg frame).2.1 (detectionSetup cfg frame).2.2))).1 ∧
    (step cfg detector gazeModel frame).result.yaw
        = (gazeModel ((survivors cfg.confidenceThreshold fs).map
            (cropRect (detectionSetup cfg frame).2.1 (detectionSetup cfg frame).2.2))).2 := by
  simp only [step, hdet, collectFaces_eq]
  rw [if_pos (by simpa using hpos)]
  exact ⟨rfl, rfl, rfl⟩

theorem step_some_zero_eq (cfg : StepConfig) (detector : Frame → Option (List FaceCandidate))
    (gazeModel : List FaceImg → List ℚ × List ℚ) (frame : Frame) (fs : List FaceCandidate)
    (hdet : detector (detectionSetup cfg frame).1 = some fs)
    (hz : (survivors cfg.confidenceThreshold fs).length = 0) :
    (step cfg detector gazeModel frame).result = emptyResult ∧
    (step cfg detector gazeModel frame).gazeBatches = [] := by
  have hsnil : survivors cfg.confidenceThreshold fs = [] := List.length_eq_zero.mp hz
  simp [step, hdet, collectFaces_eq, hsnil, emptyResult]

theorem mem_survivors (thr : ℚ) (fs : List FaceCandidate) (c : FaceCandidate) :
    c ∈ survivors thr fs ↔ c ∈ fs ∧ ¬ c.score < thr := by
  simp [survivors, List.mem_filter]

/-- Claim C1 counterexample: with unit scale factors and a detector box whose
min corner is negative, the box stored in the assembled result keeps the
negative min-corner coordinates: the stored box is not clamped to be
nonnegative. -/
theorem stored_box_min_corner_negative :
    (step ⟨none, 0⟩
        (fun _ => some [⟨⟨-10, -10, 50, 50⟩, [(0, 0), (0, 0), (0, 0), (0, 0), (0, 0)], 1⟩])
        (fun b => (b.map (fun _ => 0), b.map (fun _ => 0))) ⟨640, 480⟩).result.bboxes
      = [⟨-10, -10, 50, 50⟩] ∧ ((-10 : ℚ) < 0) := by
  constructor
  · norm_num [step, detectionSetup, collectFaces, survivors, scaledBox, scaledLandmarks,
      cropRect]
  · norm_num

/-- Claim C1 (amended): for every frame and surviving candidate, the integer
crop rectangle cut from the original frame has its min-corner coordinates
clamped to be nonnegative (its max corner is left unclamped), while the
bounding box stored in the assembled result is the raw rescaled box with no
clamping applied to any coordinate. -/
theorem crop_min_clamped_stored_box_unclamped (cfg : StepConfig)
    (detector : Frame → Option (List FaceCandidate))
    (gazeModel : List FaceImg → List ℚ × List ℚ) (frame : Frame) (fs : List FaceCandidate)
    (hdet : detector (detectionSetup cfg frame).1 = some fs) :
    (∀ batch ∈ (step cfg detector gazeModel frame).gazeBatches, ∀ img ∈ batch,
        0 ≤ img.cropXMin ∧ 0 ≤ img.cropYMin) ∧
    (step cfg detector gazeModel frame).result.bboxes
        = (survivors cfg.confidenceThreshold fs).map
            (scaledBox (detectionSetup cfg frame).2.1 (detectionSetup cfg frame).2.2) := by
  constructor
  · intro batch hb img hi
    by_cases hpos : 0 < (survivors cfg.confidenceThreshold fs).length
    · obtain ⟨hbat, -, -⟩ := step_some_pos_eq cfg detector gazeModel frame fs hdet hpos
      rw [hbat] at hb
      simp only [List.mem_singleton] at hb
      subst hb
      obtain ⟨c, -, rfl⟩ := List.mem_map.mp hi
      exact ⟨le_max_left _ _, le_max_left _ _⟩
    · have hz : (survivors cfg.confidenceThreshold fs).length = 0 :=
        Nat.eq_zero_of_not_pos hpos
      obtain ⟨-, hbat⟩ := step_some_zero_eq cfg detector gazeModel frame fs hdet hz
      rw [hbat] at hb
      simp at hb
  · exact (step_some_parts cfg detector gazeModel frame fs hdet).1

/-- Claim C1 witness: at a concrete frame with a candidate whose detector box
is (-20, -20, 100, 100), every batched face image has nonnegative crop
min corner, while the stored box keeps the negative coordinates. -/
theorem crop_min_clamped_stored_box_unclamped_witness :
    (∀ batch ∈ (step ⟨none, 0⟩
        (fun _ => some [⟨⟨-20, -20, 100, 100⟩, [(0, 0), (0, 0), (0, 0), (0, 0), (0, 0)], 1⟩])
        (fun b => (b.map (fun _ => 0), b.map (fun _ => 0))) ⟨640, 480⟩).gazeBatches,
      ∀ img ∈ batch, 0 ≤ img.cropXMin ∧ 0 ≤ img.cropYMin) ∧
    (step ⟨none, 0⟩
        (fun _ => some [⟨⟨-20, -20, 100, 100⟩, [(0, 0), (0, 0), (0, 0), (0, 0), (0, 0)], 1⟩])
        (fun b => (b.map (fun _ => 0), b.map (fun _ => 0))) ⟨640, 480⟩).result.bboxes
      = [⟨-20, -20, 100, 100⟩] := by
  have h := crop_min_clamped_stored_box_unclamped ⟨none, 0⟩
    (fun _ => some [⟨⟨-20, -20, 100, 100⟩, [(0, 0), (0, 0), (0, 0), (0, 0), (0, 0)], 1⟩])
    (fun b => (b.map (fun _ => 0), b.map (fun _ => 0))) ⟨640, 480⟩
    [⟨⟨-20, -20, 100, 100⟩, [(0, 0), (0, 0), (0, 0), (0, 0), (0, 0)], 1⟩] rfl
  exact ⟨h.1, h.2.trans (by norm_num [detectionSetup, survivors, scaledBox])⟩

/-- Claim C6: when zero faces survive the confidence filter (whether the
detector returned an empty list or only below-threshold candidates), the
step returns the all-empty result and submits no batch to the gaze model;
`step` is a total function, so this outcome is a normal return value. -/
theorem step_zero_survivors_empty (cfg : StepConfig)
    (detector : Frame → Option (List FaceCandidate))
    (gazeModel : List FaceImg → List ℚ × List ℚ) (frame : Frame)
    (h : numSurvivors cfg.confidenceThreshold (detector (detectionSetup cfg frame).1) = 0) :
    (step cfg detector gazeModel frame).result = emptyResult ∧
    (step cfg detector gazeModel frame).gazeBatches = [] := by
  cases hd : detector (detectionSetup cfg frame).1 with
  | none =>
    rw [step_none_eq cfg detector gazeModel frame hd]
    exact ⟨rfl, rfl⟩
  | some fs =>
    have hz : (survivors cfg.confidenceThreshold fs).length = 0 := by
      rw [hd] at h
      simpa [numSurvivors] using h
    exact step_some_zero_eq cfg detector gazeModel frame fs hd hz

/-- Claim C6 witness: a frame whose only candidate scores below the
threshold yields the empty result and no gaze invocation. -/
theorem step_zero_survivors_empty_witness :
    (step ⟨none, 1/2⟩
        (fun _ => some [⟨⟨0, 0, 10, 10⟩, [(0, 0), (0, 0), (0, 0), (0, 0), (0, 0)], 1/4⟩])
        (fun b => (b.map (fun _ => 0), b.map (fun _ => 0))) ⟨640, 480⟩).result = emptyResult ∧
    (step ⟨none, 1/2⟩
        (fun _ => some [⟨⟨0, 0, 10, 10⟩, [(0, 0), (0, 0), (0, 0), (0, 0), (0, 0)], 1/4⟩])
        (fun b => (b.map (fun _ => 0), b.map (fun _ => 0))) ⟨640, 480⟩).gazeBatches = [] := by
  exact step_zero_survivors_empty ⟨none, 1/2⟩
    (fun _ => some [⟨⟨0, 0, 10, 10⟩, [(0, 0), (0, 0), (0, 0), (0, 0), (0, 0)], 1/4⟩])
    (fun b => (b.map (fun _ => 0), b.map (fun _ => 0))) ⟨640, 480⟩
    (by norm_num [numSurvivors, survivors, detectionSetup])

/-- Claim C9: if the detector returns None instead of a candidate list, the
step still returns the well-formed all-empty result and submits no batch to
the gaze model; `step` is a total function, so nothing is raised. -/
theorem step_detector_none_empty (cfg : StepConfig)
    (detector : Frame → Option (List FaceCandidate))
    (gazeModel : List FaceImg → List ℚ × List ℚ) (frame : Frame)
    (hdet : detector (detectionSetup cfg frame).1 = none) :
    (step cfg detector gazeModel frame).result = emptyResult ∧
    (step cfg detector gazeModel frame).gazeBatches = [] := by
  rw [step_none_eq cfg detector gazeModel frame hdet]
  exact ⟨rfl, rfl⟩

/-- Claim C9 witness: a detector constantly returning None yields the empty
result and no gaze invocation on a concrete frame. -/
theorem step_detector_none_empty_witness :
    (step ⟨none, 1/2⟩ (fun _ => none)
        (fun b => (b.map (fun _ => 0), b.map (fun _ => 0))) ⟨640, 480⟩).result = emptyResult ∧
    (step ⟨none, 1/2⟩ (fun _ => none)
        (fun b => (b.map (fun _ => 0), b.map (fun _ => 0))) ⟨640, 480⟩).gazeBatches = [] := by
  exact step_detector_none_empty ⟨none, 1/2⟩ (fun _ => none)
    (fun b => (b.map (fun _ => 0), b.map (fun _ => 0))) ⟨640, 480⟩ rfl

/-- Claim C4: the assembled result consists exactly of the entries of the
candidates at or above the confidence threshold, in detector order: each
below-threshold candidate contributes nothing, each at-or-above-threshold
candidate contributes its (rescaled) box, landmarks and score, and every
stored score stems from a surviving candidate. -/
theorem step_confidence_filter (cfg : StepConfig)
    (detector : Frame → Option (List FaceCandidate))
    (gazeModel : List FaceImg → List ℚ × List ℚ) (frame : Frame) (fs : List FaceCandidate)
    (hdet : detector (detectionSetup cfg frame).1 = some fs) :
    (step cfg detector gazeModel frame).result.scores
        = (survivors cfg.confidenceThreshold fs).map FaceCandidate.score ∧
    (step cfg detector gazeModel frame).result.bboxes
        = (survivors cfg.confidenceThreshold fs).map
            (scaledBox (detectionSetup cfg frame).2.1 (detectionSetup cfg frame).2.2) ∧
    (step cfg detector gazeModel frame).result.landmarks
        = (survivors cfg.confidenceThreshold fs).map
            (scaledLandmarks (detectionSetup cfg frame).2.1 (detectionSetup cfg frame).2.2) ∧
    (∀ c ∈ fs, ¬ c.score < cfg.confidenceThreshold →
        c.score ∈ (step cfg detector gazeModel frame).result.scores ∧
        scaledBox (detectionSetup cfg frame).2.1 (detectionSetup cfg frame).2.2 c
          ∈ (step cfg detector gazeModel frame).result.bboxes) ∧
    (∀ q ∈ (step cfg detector gazeModel frame).result.scores,
        ∃ c ∈ fs, ¬ c.score < cfg.confidenceThreshold ∧ q = c.score) := by
  obtain ⟨hb, hl, hs⟩ := step_some_parts cfg detector gazeModel frame fs hdet
  refine ⟨hs, hb, hl, ?_, ?_⟩
  · intro c hc hth
    have hmem : c ∈ survivors cfg.confidenceThreshold fs :=
      (mem_survivors cfg.confidenceThreshold fs c).mpr ⟨hc, hth⟩
    constructor
    · rw [hs]
      exact List.mem_map_of_mem _ hmem
    · rw [hb]
      exact List.mem_map_of_mem _ hmem
  · intro q hq
    rw [hs] at hq
    obtain ⟨c, hc, rfl⟩ := List.mem_map.mp hq
    obtain ⟨hcf, hth⟩ := (mem_survivors cfg.confidenceThreshold fs c).mp hc
    exact ⟨c, hcf, hth, rfl⟩

/-- Claim C4 witness: of two concrete candidates with scores 3/4 and 1/4
against threshold 1/2, exactly the first one's score and box appear in the
result. -/
theorem step_confidence_filter_witness :
    (step ⟨none, 1/2⟩
        (fun _ => some [⟨⟨0, 0, 10, 10⟩, [(0, 0), (0, 0), (0, 0), (0, 0), (0, 0)], 3/4⟩,
                        ⟨⟨5, 5, 20, 20⟩, [(0, 0), (0, 0), (0, 0), (0, 0), (0, 0)], 1/4⟩])
        (fun b => (b.map (fun _ => 0), b.map (fun _ => 0))) ⟨640, 480⟩).result.scores
      = [3/4] ∧
    (step ⟨none, 1/2⟩
        (fun _ => some [⟨⟨0, 0, 10, 10⟩, [(0, 0), (0, 0), (0, 0), (0, 0), (0, 0)], 3/4⟩,
                        ⟨⟨5, 5, 20, 20⟩, [(0, 0), (0, 0), (0, 0), (0, 0), (0, 0)], 1/4⟩])
        (fun b => (b.map (fun _ => 0), b.map (fun _ => 0))) ⟨640, 480⟩).result.bboxes
      = [⟨0, 0, 10, 10⟩] := by
  have h := step_confidence_filter ⟨none, 1/2⟩
    (fun _ => some [⟨⟨0, 0, 10, 10⟩, [(0, 0), (0, 0), (0, 0), (0, 0), (0, 0)], 3/4⟩,
                    ⟨⟨5, 5, 20, 20⟩, [(0, 0), (0, 0), (0, 0), (0, 0), (0, 0)], 1/4⟩])
    (fun b => (b.map (fun _ => 0), b.map (fun _ => 0))) ⟨640, 480⟩
    [⟨⟨0, 0, 10, 10⟩, [(0, 0), (0, 0), (0, 0), (0, 0), (0, 0)], 3/4⟩,
     ⟨⟨5, 5, 20, 20⟩, [(0, 0), (0, 0), (0, 0), (0, 0), (0, 0)], 1/4⟩] rfl
  exact ⟨h.1.trans (by norm_num [survivors]),
         h.2.1.trans (by norm_num [survivors, scaledBox, detectionSetup])⟩

/-- Claim C5: the five arrays of the assembled result (pitch, yaw, boxes,
landmarks, scores) all have length equal to the number of candidates that
survived the confidence filter, given the gaze model's numeric contract of
one pitch and one yaw per batch entry. -/
theorem step_result_lengths (cfg : StepConfig)
    (detector : Frame → Option (List FaceCandidate))
    (gazeModel : List FaceImg → List ℚ × List ℚ) (frame : Frame)
    (hgm : ∀ b, (gazeModel b).1.length = b.length ∧ (gazeModel b).2.length = b.length) :
    (step cfg detector gazeModel frame).result.pitch.length
        = numSurvivors cfg.confidenceThreshold (detector (detectionSetup cfg frame).1) ∧
    (step cfg detector gazeModel frame).result.yaw.length
        = numSurvivors cfg.confidenceThreshold (detector (detectionSetup cfg frame).1) ∧
    (step cfg detector gazeModel frame).result.bboxes.length
        = numSurvivors cfg.confidenceThreshold (detector (detectionSetup cfg frame).1) ∧
    (step cfg detector gazeModel frame).result.landmarks.length
        = numSurvivors cfg.confidenceThreshold (detector (detectionSetup cfg frame).1) ∧
    (step cfg detector gazeModel frame).result.scores.length
        = numSurvivors cfg.confidenceThreshold (detector (detectionSetup cfg frame).1) := by
  cases hd : detector (detectionSetup cfg frame).1 with
  | none =>
    rw [step_none_eq cfg detector gazeModel frame hd]
    simp [numSurvivors, emptyResult]
  | some fs =>
    obtain ⟨hb, hl, hs⟩ := step_some_parts cfg detector gazeModel frame fs hd
    simp only [numSurvivors]
    rw [hb, hl, hs]
    by_cases hpos : 0 < (survivors cfg.confidenceThreshold fs).length
    · obtain ⟨-, hp, hy⟩ := step_some_pos_eq cfg detector gazeModel frame fs hd hpos
      rw [hp, hy, (hgm _).1, (hgm _).2]
      simp
    · have hz : (survivors cfg.confidenceThreshold fs).length = 0 :=
        Nat.eq_zero_of_not_pos hpos
      obtain ⟨hres, -⟩ := step_some_zero_eq cfg detector gazeModel frame fs hd hz
      have hsnil : survivors cfg.confidenceThreshold fs = [] := List.length_eq_zero.mp hz
      rw [hres, hsnil]
      simp [emptyResult]

/-- Claim C5 witness: with one of two concrete candidates surviving, all
five arrays have length one. -/
theorem step_result_lengths_witness :
    (step ⟨none, 1/2⟩
        (fun _ => some [⟨⟨0, 0, 10, 10⟩, [(0, 0), (0, 0), (0, 0), (0, 0), (0, 0)], 3/4⟩,
                        ⟨⟨5, 5, 20, 20⟩, [(0, 0), (0, 0), (0, 0), (0, 0), (0, 0)], 1/4⟩])
        (fun b => (b.map (fun _ => 0), b.map (fun _ => 0))) ⟨640, 480⟩).result.pitch.length
      = 1 ∧
    (step ⟨none, 1/2⟩
        (fun _ => some [⟨⟨0, 0, 10, 10⟩, [(0, 0), (0, 0), (0, 0), (0, 0), (0, 0)], 3/4⟩,
                        ⟨⟨5, 5, 20, 20⟩, [(0, 0), (0, 0), (0, 0), (0, 0), (0, 0)], 1/4⟩])
        (fun b => (b.map (fun _ => 0), b.map (fun _ => 0))) ⟨640, 480⟩).result.yaw.length
      = 1 ∧
    (step ⟨none, 1/2⟩
        (fun _ => some [⟨⟨0, 0, 10, 10⟩, [(0, 0), (0, 0), (0, 0), (0, 0), (0, 0)], 3/4⟩,
                        ⟨⟨5, 5, 20, 20⟩, [(0, 0), (0, 0), (0, 0), (0, 0), (0, 0)], 1/4⟩])
        (fun b => (b.map (fun _ => 0), b.map (fun _ => 0))) ⟨640, 480⟩).result.scores.length
      = 1 := by
  have h := step_result_lengths ⟨none, 1/2⟩
    (fun _ => some [⟨⟨0, 0, 10, 10⟩, [(0, 0), (0, 0), (0, 0), (0, 0), (0, 0)], 3/4⟩,
                    ⟨⟨5, 5, 20, 20⟩, [(0, 0), (0, 0), (0, 0), (0, 0), (0, 0)], 1/4⟩])
    (fun b => (b.map (fun _ => 0), b.map (fun _ => 0))) ⟨640, 480⟩
    (fun b => ⟨by simp, by simp⟩)
  exact ⟨h.1.trans (by norm_num [numSurvivors, survivors]),
         h.2.1.trans (by norm_num [numSurvivors, survivors]),
         h.2.2.2.2.trans (by norm_num [numSurvivors, survivors])⟩

/-- Claim C7: whenever at least one face survives the confidence filter, the
gaze model receives exactly one batch, holding one cropped face image per
surviving candidate, each resized to 224 by 224. -/
theorem step_invokes_gaze_once (cfg : StepConfig)
    (detector : Frame → Option (List FaceCandidate))
    (gazeModel : List FaceImg → List ℚ × List ℚ) (frame : Frame)
    (h : 0 < numSurvivors cfg.confidenceThreshold (detector (detectionSetup cfg frame).1)) :
    ∃ batch, (step cfg detector gazeModel frame).gazeBatches = [batch] ∧
      batch.length
        = numSurvivors cfg.confidenceThreshold (detector (detectionSetup cfg frame).1) ∧
      ∀ img ∈ batch, img.width = 224 ∧ img.height = 224 := by
  cases hd : detector (detectionSetup cfg frame).1 with
  | none =>
    rw [hd] at h
    simp [numSurvivors] at h
  | some fs =>
    have hpos : 0 < (survivors cfg.confidenceThreshold fs).length := by
      rw [hd] at h
      simpa [numSurvivors] using h
    obtain ⟨hbat, -, -⟩ := step_some_pos_eq cfg detector gazeModel frame fs hd hpos
    refine ⟨_, hbat, ?_, ?_⟩
    · rw [List.length_map]
      simp [numSurvivors]
    · intro img hi
      obtain ⟨c, -, rfl⟩ := List.mem_map.mp hi
      exact ⟨rfl, rfl⟩

/-- Claim C7 witness: with two concrete surviving candidates, the gaze model
receives a single batch of two 224 by 224 images. -/
theorem step_invokes_gaze_once_witness :
    ∃ batch, (step ⟨none, 1/2⟩
        (fun _ => some [⟨⟨0, 0, 10, 10⟩, [(0, 0), (0, 0), (0, 0), (0, 0), (0, 0)], 3/4⟩,
                        ⟨⟨5, 5, 20, 20⟩, [(0, 0), (0, 0), (0, 0), (0, 0), (0, 0)], 1⟩])
        (fun b => (b.map (fun _ => 0), b.map (fun _ => 0))) ⟨640, 480⟩).gazeBatches
        = [batch] ∧
      batch.length = 2 ∧ ∀ img ∈ batch, img.width = 224 ∧ img.height = 224 := by
  obtain ⟨batch, h1, h2, h3⟩ := step_invokes_gaze_once ⟨none, 1/2⟩
    (fun _ => some [⟨⟨0, 0, 10, 10⟩, [(0, 0), (0, 0), (0, 0), (0, 0), (0, 0)], 3/4⟩,
                    ⟨⟨5, 5, 20, 20⟩, [(0, 0), (0, 0), (0, 0), (0, 0), (0, 0)], 1⟩])
    (fun b => (b.map (fun _ => 0), b.map (fun _ => 0))) ⟨640, 480⟩
    (by norm_num [numSurvivors, survivors, detectionSetup])
  exact ⟨batch, h1, h2.trans (by norm_num [numSurvivors, survivors, detectionSetup]), h3⟩

/-- Claim C3: when the detection resolution is set with both dimensions
positive, detection runs on a frame resized to that resolution and boxes and
landmarks are rescaled by orig/det per axis; when the setting is absent or a
dimension is nonpositive, detection runs on the original frame with unit
scale factors.  In particular, on a 1280 by 960 frame with detection
resolution (640, 480), a box detected at (50, 50, 100, 100) is stored
rescaled to (100, 100, 200, 200). -/
theorem step_detection_resolution (detector : Frame → Option (List FaceCandidate))
    (gazeModel : List FaceImg → List ℚ × List ℚ) (thr : ℚ) (frame : Frame) :
    (∀ dw dh : Int, 0 < dw → 0 < dh →
      (step ⟨some (dw, dh), thr⟩ detector gazeModel frame).detectionFrame
          = ⟨dw.toNat, dh.toNat⟩ ∧
      (step ⟨some (dw, dh), thr⟩ detector gazeModel frame).scaleX
          = (frame.width : ℚ) / (dw : ℚ) ∧
      (step ⟨some (dw, dh), thr⟩ detector gazeModel frame).scaleY
          = (frame.height : ℚ) / (dh : ℚ)) ∧
    (∀ dw dh : Int, ¬ (0 < dw ∧ 0 < dh) →
      (step ⟨some (dw, dh), thr⟩ detector gazeModel frame).detectionFrame = frame ∧
      (step ⟨some (dw, dh), thr⟩ detector gazeModel frame).scaleX = 1 ∧
      (step ⟨some (dw, dh), thr⟩ detector gazeModel frame).scaleY = 1) ∧
    ((step ⟨none, thr⟩ detector gazeModel frame).detectionFrame = frame ∧
      (step ⟨none, thr⟩ detector gazeModel frame).scaleX = 1 ∧
      (step ⟨none, thr⟩ detector gazeModel frame).scaleY = 1) ∧
    (step ⟨some (640, 480), 1/2⟩
        (fun f => if f = ⟨640, 480⟩ then
            some [⟨⟨50, 50, 100, 100⟩, [(0, 0), (0, 0), (0, 0), (0, 0), (0, 0)], 9/10⟩]
          else none)
        (fun b => (b.map (fun _ => 0), b.map (fun _ => 0))) ⟨1280, 960⟩).result.bboxes
      = [⟨100, 100, 200, 200⟩] := by
  refine ⟨fun dw dh h1 h2 => ?_, fun dw dh h => ?_, ?_, ?_⟩
  · obtain ⟨ha, hx, hy⟩ := step_projections ⟨some (dw, dh), thr⟩ detector gazeModel frame
    rw [ha, hx, hy]
    simp [detectionSetup, h1, h2]
  · obtain ⟨ha, hx, hy⟩ := step_projections ⟨some (dw, dh), thr⟩ detector gazeModel frame
    rw [ha, hx, hy]
    simp [detectionSetup, h]
  · obtain ⟨ha, hx, hy⟩ := step_projections ⟨none, thr⟩ detector gazeModel frame
    rw [ha, hx, hy]
    simp [detectionSetup]
  · have ht1 : Int.toNat 640 = 640 := by decide
    have ht2 : Int.toNat 480 = 480 := by decide
    norm_num [step, detectionSetup, ht1, ht2, collectFaces, survivors, scaledBox,
      scaledLandmarks, cropRect]

/-- Claim C3 witness: at detection resolution (640, 480) on a 1280 by 960
frame, the detector is handed the 640 by 480 frame and the scale factors are
2 and 2. -/
theorem step_detection_resolution_witness :
    (step ⟨some ((640 : Int), (480 : Int)), 1/2⟩ (fun _ => none)
        (fun b => (b.map (fun _ => 0), b.map (fun _ => 0)))
        ⟨1280, 960⟩).detectionFrame = ⟨640, 480⟩ ∧
    (step ⟨some ((640 : Int), (480 : Int)), 1/2⟩ (fun _ => none)
        (fun b => (b.map (fun _ => 0), b.map (fun _ => 0))) ⟨1280, 960⟩).scaleX = 2 ∧
    (step ⟨some ((640 : Int), (480 : Int)), 1/2⟩ (fun _ => none)
        (fun b => (b.map (fun _ => 0), b.map (fun _ => 0))) ⟨1280, 960⟩).scaleY = 2 := by
  have h := (step_detection_resolution (fun _ => none)
    (fun b => (b.map (fun _ => 0), b.map (fun _ => 0))) (1/2) ⟨1280, 960⟩).1
    640 480 (by norm_num) (by norm_num)
  refine ⟨h.1.trans (by decide), h.2.1.trans (by norm_num), h.2.2.trans (by norm_num)⟩

/-- Claim C2 counterexample: the explicit request "cpu" is not honored.  On a
machine where CUDA is available, `--device cpu` selects `cuda:0`, not the
CPU backend. -/
theorem selectDevice_cpu_request_not_honored :
    selectDevice "cpu".data true true = Device.cuda 0 ∧ Device.cuda 0 ≠ Device.cpu := by
  exact ⟨by decide, by decide⟩

/-- Claim C2 (amended): a request of "cpu" triggers auto-detection in
priority CUDA, then MPS, then CPU, rather than binding the CPU backend; a
request starting with "gpu" runs the same availability probe; a request
matching no known backend word falls back to CPU. -/
theorem selectDevice_dispatch (request : List Char) (cuda mps : Bool) :
    (lowerChars request = "cpu".data →
      selectDevice request cuda mps =
        (if cuda then Device.cuda 0 else if mps then Device.mps else Device.cpu)) ∧
    (charsStartWith (lowerChars request) "gpu".data = true →
      selectDevice request cuda mps =
        (if cuda then Device.cuda 0 else if mps then Device.mps else Device.cpu)) ∧
    (lowerChars request ≠ "cpu".data →
      charsStartWith (lowerChars request) "gpu".data = false →
      selectDevice request cuda mps = Device.cpu) := by
  refine ⟨fun h => ?_, fun h => ?_, fun h1 h2 => ?_⟩
  · simp [selectDevice, h]
  · by_cases hc : lowerChars request = "cpu".data
    · simp [selectDevice, hc]
    · simp [selectDevice, hc, h]
  · simp [selectDevice, h1, h2]

/-- Claim C2 witness: a request matching no known backend ("tpu") falls back
to CPU even with every accelerator available. -/
theorem selectDevice_dispatch_witness :
    selectDevice "tpu".data true true = Device.cpu := by
  exact (selectDevice_dispatch "tpu".data true true).2.2 (by decide) (by decide)

/-- Claim C10: for any request whose lowercase form starts with "gpu"
(such as "gpu:3"), the requested index is ignored: whenever CUDA is
available the selected device is discrete GPU 0. -/
theorem selectDevice_gpu_always_index_zero (request : List Char) (mps : Bool)
    (h : charsStartWith (lowerChars request) "gpu".data = true) :
    selectDevice request true mps = Device.cuda 0 := by
  by_cases hc : lowerChars request = "cpu".data
  · rw [hc] at h
    exact absurd h (by decide)
  · simp [selectDevice, hc, h]

/-- Claim C10 witness: the request "gpu:3" with CUDA available selects
`cuda:0`, ignoring the index 3. -/
theorem selectDevice_gpu_always_index_zero_witness :
    selectDevice "gpu:3".data true true = Device.cuda 0 := by
  exact selectDevice_gpu_always_index_zero "gpu:3".data true (by decide)

/-- Claim C8: when the camera returns no frame, the iteration pauses and
retries: the loop over any continuation trace performs the pause action and
then keeps running on the rest of the trace, and the pause action is not the
quit action, so a transient acquisition failure never terminates the loop. -/
theorem loop_pauses_and_retries_on_failed_read (rest : List CamEvent) :
    loopIter CamEvent.noFrame = IterAction.pauseRetry ∧
    runLoop (CamEvent.noFrame :: rest) = IterAction.pauseRetry :: runLoop rest ∧
    IterAction.pauseRetry ≠ IterAction.quit := by
  exact ⟨rfl, rfl, by decide⟩

end Wispr
